import Mathlib

/-!
Verification of the connection-lifecycle core of `@cldmv/node-android-tv-remote`
(`src/lib/android-tv-remote.mjs`) against its natural-language specification.

The JavaScript module is shallowly embedded: each relevant function becomes an
executable Lean definition over explicit state; asynchronous control flow is
rendered as ordered traces of operational events; settlement of a JS promise is
an `Except` value, where `Except.ok` is a fulfilled promise (with its value)
and `Except.error` a rejected one.
-/

namespace AndroidTvRemote

/-- Boolean test that `pat` is a leading segment of `s` (character lists). -/
def leadingSeg : List Char → List Char → Bool
  | [], _ => true
  | _ :: _, [] => false
  | p :: ps, c :: cs => p == c && leadingSeg ps cs

/-- Boolean test that `pat` occurs contiguously inside `s` (character lists). -/
def hasSegment (pat : List Char) : List Char → Bool
  | [] => leadingSeg pat []
  | c :: cs => leadingSeg pat (c :: cs) || hasSegment pat cs

/-- Embedding of JavaScript `s.includes(pat)` on strings. -/
def containsSub (s pat : String) : Bool :=
  hasSegment pat.toList s.toList

/-- A structured notification published on the module's event bus.
`log` carries (level, message, source); `errorEv` carries (message, source)
of the wrapped `Error` object. Timestamps are irrelevant to the claims and
are omitted from the embedding. -/
inductive Ev where
  | log (level : String) (message : String) (source : String)
  | errorEv (message : String) (source : String)
  deriving Repr, DecidableEq

/-- The match used by both `emitError` and `localEmitError`
(`android-tv-remote.mjs:198-200` and `:329-331`): an error message naming the
transient post-teardown PNG-decode noise class. -/
def pngNoise (msg : String) : Bool :=
  containsSub msg "libspng" || containsSub msg "pngload_buffer" ||
    containsSub msg "read error"

/-- Embedding of the module-level `emitError` (`android-tv-remote.mjs:194-212`):
the list of events it publishes for an error with message `msg` from `source`.
Note the downgrade to a debug log is applied whenever the message matches,
with no access to the connection state. -/
def emitErrorEvents (msg source : String) : List Ev :=
  if pngNoise msg then
    [Ev.log "debug" ("PNG processing error (likely post-disconnect): " ++ msg) source]
  else
    [Ev.errorEv msg source]

/-- Embedding of the instance-local `localEmitError`
(`android-tv-remote.mjs:326-339`): suppresses matching messages only while
`connected` is false, and otherwise delegates to the module-level `emitError`. -/
def localEmitErrorEvents (connected : Bool) (msg source : String) : List Ev :=
  if !connected && pngNoise msg then
    [Ev.log "debug" ("PNG processing error (post-disconnect): " ++ msg) source]
  else
    emitErrorEvents msg source

/-- Embedding of `handleDisconnectError` (`android-tv-remote.mjs:227-252`):
the events it publishes while classifying a transport error, in order.
The function returns (not throws) the error it was given. -/
def handleDisconnectErrorEvents (msg : String) : List Ev :=
  emitErrorEvents msg "handleDisconnectError" ++
  (if containsSub msg "device unauthorized" || containsSub msg "failed to authenticate" then
    emitErrorEvents msg "handleDisconnectError" ++
    [Ev.log "error" "Your device is unauthorized or failed to authenticate. Please check your TV and accept the authorization dialog to allow this system to connect via ADB." "handleDisconnectError",
     Ev.log "info" "If you do not see a prompt, try disconnecting and reconnecting the device, or reboot your TV." "handleDisconnectError",
     Ev.log "info" "If the problem persists, remove the device from the list of authorized ADB devices in Developer Options and try again." "handleDisconnectError",
     Ev.log "info" "Tip: In Developer Options on your TV, try toggling \x27ADB Debugging\x27 off and then back on. This often resolves authentication issues." "handleDisconnectError"]
  else []) ++
  (if containsSub msg "actively refused" || containsSub msg "No connection could be made" then
    emitErrorEvents msg "handleDisconnectError" ++
    [Ev.log "error" "The device refused the connection. To enable ADB, follow these steps on your Android TV or Fire TV:" "handleDisconnectError",
     Ev.log "info" "1. Open Settings > Device Preferences > About (or My Fire TV > About)" "handleDisconnectError",
     Ev.log "info" "2. Scroll to \x27Build\x27 and press OK 7 times to enable Developer Options" "handleDisconnectError",
     Ev.log "info" "3. Go back to Settings > Device Preferences > Developer Options" "handleDisconnectError",
     Ev.log "info" "4. Enable \x27Developer Options\x27 if needed, then enable \x27ADB Debugging\x27 and \x27Apps from Unknown Sources\x27" "handleDisconnectError",
     Ev.log "info" "5. Ensure your TV and computer are on the same network" "handleDisconnectError",
     Ev.log "info" "6. On your computer, run: adb connect <device-ip>:5555" "handleDisconnectError",
     Ev.log "info" "7. Accept the authorization prompt on your TV" "handleDisconnectError",
     Ev.log "info" "If you do not see \x27Developer Options\x27, repeat step 2 until it appears." "handleDisconnectError"]
  else [])

/-- An operational step taken by the lifecycle code, in program order.
`transportConnect`/`transportDisconnect`/`listDevices` are the Session Handle
calls; `setConn` is a write to the `connected` flag; `settled id ok` records
that the tracked background operation `id` settled (success iff `ok`),
as observed by `await Promise.allSettled`. -/
inductive Step where
  | transportConnect
  | transportDisconnect
  | listDevices
  | setConn (b : Bool)
  | settled (id : Nat) (ok : Bool)
  deriving Repr, DecidableEq

/-- The value a fulfilled promise of `connect`/`disconnect` carries:
`vUnit` (`undefined`, the normal path), `vTrue` (the literal `true` returned on
the benign already-X paths), or `vErr msg` (the `Error` object returned by
`handleDisconnectError` on every other transport failure). -/
inductive JsRet where
  | vUnit
  | vTrue
  | vErr (msg : String)
  deriving Repr, DecidableEq

/-- Result of running one lifecycle call: the new `connected` flag, the
settlement of the returned promise (`Except.error` would be a rejection),
the ordered operational trace, and the events published on the bus. -/
structure RunOut where
  connected : Bool
  ret : Except String JsRet
  trace : List Step
  bus : List Ev
  deriving Repr

/-- Embedding of `wrapAsync`'s callback interface (`android-tv-remote.mjs:154-164`):
given the settlement of the inner promise, the `(error, result)` pair passed to a
trailing callback — `cb(null, result)` on fulfilment, `cb(err)` on rejection. -/
def wrapAsyncCb (r : Except String JsRet) : Option String × Option JsRet :=
  match r with
  | Except.ok v => (none, some v)
  | Except.error e => (some e, none)

/-- Embedding of `connect` (`android-tv-remote.mjs:504-525`).
`tr` is the transport outcome that `client.connect(ip, port)` would produce
(`none` = resolves, `some msg` = rejects with an error whose message is `msg`);
it is only consulted when the transport is actually called. Timer bookkeeping
(`startHeartbeat`) is modelled separately by `TimerSys`. -/
def connectRun (quiet connected : Bool) (host : String) (tr : Option String) : RunOut :=
  if connected then
    { connected := true, ret := Except.ok JsRet.vUnit, trace := [],
      bus := if quiet then [] else [Ev.log "info" ("Already connected to " ++ host) "connect"] }
  else
    match tr with
    | none =>
      { connected := true, ret := Except.ok JsRet.vUnit,
        trace := [Step.transportConnect, Step.setConn true],
        bus := if quiet then [] else [Ev.log "info" ("Connected to " ++ host) "connect"] }
    | some msg =>
      if containsSub msg "already connected" then
        { connected := true, ret := Except.ok JsRet.vTrue,
          trace := [Step.transportConnect, Step.setConn true],
          bus := if quiet then [] else [Ev.log "warn" "Device already connected" "connect"] }
      else
        { connected := false, ret := Except.ok (JsRet.vErr msg),
          trace := [Step.transportConnect],
          bus := handleDisconnectErrorEvents msg }

/-- Embedding of `disconnect` (`android-tv-remote.mjs:534-570`), starting at its
drain step. `ops` is the snapshot `[...backgroundOperations]` taken when the
drain begins, each with the success flag of its eventual settlement; `await
Promise.allSettled` observes every settlement (collecting outcomes, never
short-circuiting on a failure) before control reaches `client.disconnect`.
`tr` is the transport outcome of `client.disconnect(ip, port)`.
Timer clearing (`clearTimeout`/`stopHeartbeat`) is modelled by `TimerSys`;
millisecond timing figures interpolated into log strings are omitted. -/
def disconnectRun (quiet connected : Bool) (host : String) (ops : List (Nat × Bool))
    (tr : Option String) : RunOut :=
  let drain := ops.map (fun p => Step.settled p.1 p.2)
  let drainBus : List Ev :=
    if ops.length > 0 then
      if quiet then [] else
        [Ev.log "info" ("🔄 [DISCONNECT] Waiting for " ++ toString ops.length ++
          " background operations to complete...") "disconnect",
         Ev.log "info" "✅ [DISCONNECT] All background operations completed" "disconnect"]
    else
      if quiet then [] else
        [Ev.log "info" "✅ [DISCONNECT] No background operations to wait for" "disconnect"]
  match tr with
  | none =>
    { connected := false, ret := Except.ok JsRet.vTrue,
      trace := drain ++ [Step.transportDisconnect, Step.setConn false],
      bus := drainBus ++ (if quiet then [] else
        [Ev.log "info" ("Disconnected from " ++ host) "disconnect"]) }
  | some msg =>
    if containsSub msg "disconnected" then
      { connected := false, ret := Except.ok JsRet.vTrue,
        trace := drain ++ [Step.transportDisconnect, Step.setConn false],
        bus := drainBus ++ (if quiet then [] else
          [Ev.log "warn" "Device already disconnected before explicit disconnect call" "disconnect"]) }
    else
      { connected := connected, ret := Except.ok (JsRet.vErr msg),
        trace := drain ++ [Step.transportDisconnect],
        bus := drainBus ++ handleDisconnectErrorEvents msg }

/-- Result type of `getConnectionStatus`: the updated `connected` flag, the
status string returned, and whether the transport registry was queried. -/
structure StatusOut where
  connected : Bool
  status : String
  transportQueried : Bool
  deriving Repr, DecidableEq

/-- Embedding of `getConnectionStatus` (`android-tv-remote.mjs:628-642`).
`registry` is the outcome `client.listDevices()` would produce (`Except.ok` a
snapshot of session addresses, `Except.error` a query failure); it is only
consulted when `liveCheck` is true. Matching is exact equality of the
configured `host` against a registry entry (`d.id === deviceId`). -/
def getConnectionStatusRun (connected : Bool) (host : String) (liveCheck : Bool)
    (registry : Except String (List String)) : StatusOut :=
  if !liveCheck then
    { connected := connected,
      status := if connected then "connected" else "disconnected",
      transportQueried := false }
  else
    match registry with
    | Except.ok devs =>
      let found := devs.contains host
      { connected := found,
        status := if found then "connected" else "disconnected",
        transportQueried := true }
    | Except.error _ =>
      { connected := false, status := "unknown", transportQueried := true }

/-- Embedding of one tick of the interval installed by `startConnectionCheck`
(`android-tv-remote.mjs:450-468`). `registry` is the outcome of
`client.listDevices()`; `tr` is the transport outcome a reconnecting
`connect()` would see. -/
def connectionCheckTick (quiet connected : Bool) (host : String)
    (registry : Except String (List String)) (tr : Option String) : RunOut :=
  if !connected then
    { connected := connected, ret := Except.ok JsRet.vUnit, trace := [], bus := [] }
  else
    match registry with
    | Except.ok devs =>
      if devs.contains host then
        { connected := connected, ret := Except.ok JsRet.vUnit,
          trace := [Step.listDevices], bus := [] }
      else
        let c := connectRun quiet false host tr
        { connected := c.connected, ret := Except.ok JsRet.vUnit,
          trace := [Step.listDevices, Step.setConn false] ++ c.trace,
          bus := [Ev.log "warn" ("Device " ++ host ++
            " not found in adb devices list. Attempting reconnect...") "connectionCheck"] ++ c.bus }
    | Except.error e =>
      { connected := connected, ret := Except.ok JsRet.vUnit,
        trace := [Step.listDevices],
        bus := [Ev.log "warn" ("Error checking device connection: " ++ e) "connectionCheck"] }

/-- The three timer roles owned by one remote instance: the heartbeat interval,
the connection-check (reachability) interval, and the inactivity disconnect
timeout. -/
inductive Role where
  | heartbeat
  | connCheck
  | inactivity
  deriving Repr, DecidableEq

/-- State of the instance's timer bookkeeping: the set of live scheduled timers
(as id/role pairs, ids handed out by the runtime in increasing order), the
three handle variables `heartbeatTimer` / `connectionCheckTimer` /
`disconnectTimer`, and the next fresh id. -/
structure TimerSys where
  live : List (Nat × Role)
  hb : Option Nat
  cc : Option Nat
  dc : Option Nat
  fresh : Nat
  deriving Repr, DecidableEq

/-- The handle variable of a given role. -/
def TimerSys.handleOf (s : TimerSys) : Role → Option Nat
  | Role.heartbeat => s.hb
  | Role.connCheck => s.cc
  | Role.inactivity => s.dc

/-- Ids of the live timers of a given role. -/
def roleIds (l : List (Nat × Role)) (r : Role) : List Nat :=
  match l with
  | [] => []
  | p :: ps => if p.2 == r then p.1 :: roleIds ps r else roleIds ps r

/-- Embedding of `clearTimeout` / `clearInterval`: the timer with id `id` is
removed from the live set. -/
def removeId (l : List (Nat × Role)) (id : Nat) : List (Nat × Role) :=
  l.filter (fun p => p.1 != id)

/-- Embedding of `setTimeout` / `setInterval` for role `r`: a fresh live timer
is created and its id stored in the role's handle variable. -/
def installTimer (s : TimerSys) (r : Role) : TimerSys :=
  { live := (s.fresh, r) :: s.live,
    hb := if r == Role.heartbeat then some s.fresh else s.hb,
    cc := if r == Role.connCheck then some s.fresh else s.cc,
    dc := if r == Role.inactivity then some s.fresh else s.dc,
    fresh := s.fresh + 1 }

/-- Clear the timer a handle points to, if any; the handle itself is updated
by the caller (the source either overwrites it immediately or nulls it). -/
def clearHandle (s : TimerSys) (h : Option Nat) : TimerSys :=
  match h with
  | none => s
  | some id => { s with live := removeId s.live id }

/-- Embedding of `resetDisconnectTimer` (`android-tv-remote.mjs:420-426`). -/
def resetDisconnectTimer (autoDisconnect : Bool) (s : TimerSys) : TimerSys :=
  if !autoDisconnect then s
  else installTimer (clearHandle s s.dc) Role.inactivity

/-- Embedding of `startConnectionCheck` (`android-tv-remote.mjs:450-468`),
timer bookkeeping only. -/
def startConnectionCheck (s : TimerSys) : TimerSys :=
  installTimer (clearHandle s s.cc) Role.connCheck

/-- Embedding of `startHeartbeat` (`android-tv-remote.mjs:434-443`), timer
bookkeeping only: guard on `maintainConnection`, replace the heartbeat timer,
then start the connection check. -/
def startHeartbeat (maintainConnection : Bool) (s : TimerSys) : TimerSys :=
  if !maintainConnection then s
  else startConnectionCheck (installTimer (clearHandle s s.hb) Role.heartbeat)

/-- Embedding of `stopHeartbeat` (`android-tv-remote.mjs:474-483`): clears and
nulls the heartbeat and connection-check timers. -/
def stopHeartbeat (s : TimerSys) : TimerSys :=
  let s1 := { clearHandle s s.hb with hb := none }
  { clearHandle s1 s1.cc with cc := none }

/-- Embedding of the timer prologue of `disconnect`
(`android-tv-remote.mjs:535-539`): clear and null the inactivity timer, then
`stopHeartbeat()`. -/
def disconnectTimerStep (s : TimerSys) : TimerSys :=
  stopHeartbeat { clearHandle s s.dc with dc := none }

/-- The timer-state invariant: for each role the live timers of that role are
exactly the one the role's handle points to (hence at most one per role),
every live id is below the fresh counter, and live timer ids are distinct. -/
def TimerInv (s : TimerSys) : Prop :=
  (∀ r, roleIds s.live r = (s.handleOf r).toList) ∧
  (∀ p ∈ s.live, p.1 < s.fresh) ∧
  (s.live.map Prod.fst).Nodup

/-- Embedding of `char.toUpperCase()` on a string of ASCII characters. -/
def upperStr (s : String) : String :=
  String.mk (s.toList.map Char.toUpper)

/-- True iff the string is a single lowercase ASCII letter — the test
`/^[a-z]$/.test(char)` of `getShiftedCharacter`. -/
def isSingleLowerAlpha (s : String) : Bool :=
  match s.toList with
  | [c] => decide ('a' ≤ c) && decide (c ≤ 'z')
  | _ => false

/-- The symbol pairs of the `shiftMap` literal inside `getShiftedCharacter`
(`android-tv-remote.mjs:277-283`). -/
def shiftMapJs : List (String × String) :=
  [("1", "!"), ("2", "@"), ("3", "#"), ("4", "$"), ("5", "%"),
   ("6", "^"), ("7", "&"), ("8", "*"), ("9", "("), ("0", ")"),
   ("-", "_"), ("=", "+"), ("[", "\x7b"), ("]", "\x7d"), ("\\", "|"),
   (";", ":"), ("\x27", "\""), (",", "<"), (".", ">"), ("/", "?"),
   ("\x60", "~")]

/-- Embedding of `getShiftedCharacter` (`android-tv-remote.mjs:270-286`):
lowercase letters are uppercased, symbols are looked up in the shift map, and
anything else is returned unchanged (`shiftMap[char] || char`). The `keyName`
argument is accepted but, as in the source, unused. -/
def getShiftedCharacter (keyName ch : String) : String :=
  let _ := keyName
  if isSingleLowerAlpha ch then upperStr ch
  else
    match List.lookup ch shiftMapJs with
    | some s => s
    | none => ch

/-- One generated entry of a keyboard surface: the character sent as text and
the optional keycode fallback attached as a `.keycode` method. -/
structure KeyEntry where
  textChar : String
  kc : Option Nat
  deriving Repr, DecidableEq

/-- Embedding of the `keyFns` construction (`android-tv-remote.mjs:1701-1735`):
every key of the key table gets an entry, with a keycode fallback exactly when
the keycode table has that key name. -/
def buildKeySurface (kb : List (String × String)) (kc : List (String × Nat)) :
    List (String × KeyEntry) :=
  kb.map (fun p => (p.1, { textChar := p.2, kc := List.lookup p.1 kc }))

/-- Embedding of the shift-surface construction (`android-tv-remote.mjs:1740-1763`):
a key receives a shift entry only when `getShiftedCharacter` actually changes
its character, and the entry sends the shifted character as text with no
keycode fallback attached. -/
def buildShiftSurface (kb : List (String × String)) : List (String × KeyEntry) :=
  kb.filterMap (fun p =>
    let sc := getShiftedCharacter p.1 p.2
    if sc != p.2 then some (p.1, { textChar := sc, kc := none }) else none)

/-- The shell command issued by `inputText` (`android-tv-remote.mjs:608-615`). -/
def inputTextCmd (text : String) : String :=
  "input text \"" ++ text.replace " " "%s" ++ "\""

/-- The shell command issued by `inputKeycode` (`android-tv-remote.mjs:579-584`). -/
def inputKeycodeCmd (code : Nat) : String :=
  "input keyevent " ++ toString code

/-- Result of one keyboard dispatch: the settlement of the returned promise,
the transport shell commands issued (in order; `ensureConnected()` may in
addition issue a transport connect before the first of them, never before an
error settlement), and the events published on the bus. -/
structure DispatchOut where
  ret : Except String Unit
  shell : List String
  bus : List Ev
  deriving Repr

/-- Embedding of the callable keyboard surface `keyboard.key`
(`android-tv-remote.mjs:1679-1698`): unknown names are rejected before any
transport interaction; `forceKeycode` on a key without a keycode fallback is
rejected likewise; otherwise the key is sent as text or as a keycode. -/
def keyboardKeyRun (kb : List (String × String)) (kc : List (String × Nat))
    (name : String) (force : Bool) : DispatchOut :=
  match List.lookup name kb with
  | none =>
    { ret := Except.error ("Unknown keyboard key: " ++ name), shell := [],
      bus := emitErrorEvents ("Unknown keyboard key: " ++ name) "keyboard.key" }
  | some ch =>
    if !force then
      { ret := Except.ok (), shell := [inputTextCmd ch], bus := [] }
    else
      match List.lookup name kc with
      | some code =>
        { ret := Except.ok (), shell := [inputKeycodeCmd code], bus := [] }
      | none =>
        { ret := Except.error ("No keycode available for key: " ++ name), shell := [],
          bus := emitErrorEvents ("No keycode available for key: " ++ name) "keyboard.key" }

/-- Embedding of the per-key functions `keyFns[keyName]`
(`android-tv-remote.mjs:1710-1721`): identical to the callable surface except
the name is known by construction, so only the forced-keycode failure remains. -/
def keyFnRun (kc : List (String × Nat)) (name ch : String) (force : Bool) : DispatchOut :=
  if !force then
    { ret := Except.ok (), shell := [inputTextCmd ch], bus := [] }
  else
    match List.lookup name kc with
    | some code =>
      { ret := Except.ok (), shell := [inputKeycodeCmd code], bus := [] }
    | none =>
      { ret := Except.error ("No keycode available for key: " ++ name), shell := [],
        bus := emitErrorEvents ("No keycode available for key: " ++ name) "keyboard.key" }

/-- The module-level `EventEmitter` (`android-tv-remote.mjs:167`): its
subscription list, as (event name, listener id) pairs in subscription order.
It is created once at module scope, outside `createRemote`, so every remote
instance in the process closes over this same value. -/
abbrev EmitterState : Type := List (String × Nat)

/-- `emitter.on(event, listener)`. -/
def emitterOn (em : EmitterState) (ev : String) (l : Nat) : EmitterState :=
  em ++ [(ev, l)]

/-- The listeners `emitter.emit(event, ...)` invokes, in order. -/
def listenersFor (em : EmitterState) (ev : String) : List Nat :=
  (em.filter (fun p => p.1 == ev)).map Prod.snd

/-- Embedding of `remoteApi.on` (`android-tv-remote.mjs:708-711`): the instance
id is irrelevant because the method subscribes on the module-level emitter. -/
def remoteOn (em : EmitterState) (instanceId : Nat) (ev : String) (l : Nat) :
    EmitterState :=
  let _ := instanceId
  emitterOn em ev l

/-- Embedding of `remoteApi.emit` and of the `emitLog`/`emitError` helpers used
by an instance's operations (`android-tv-remote.mjs:177-185, 750-752`): the
listeners invoked are those of the module-level emitter, regardless of which
instance emits. -/
def remoteEmitListeners (em : EmitterState) (instanceId : Nat) (ev : String) :
    List Nat :=
  let _ := instanceId
  listenersFor em ev

/-- Modelled from the spec: the shifted form of a base character — "uppercase
for lowercase letters, the mapped symbol for digits/symbol pairs" (spec §4.6;
the pairs are the shifted-character column of docs/KEYBOARD_KEYS.md); a
character with no distinct shifted form is its own shifted form. Stated
independently of the source's `getShiftedCharacter` so the two can be
compared. -/
def specShiftedCharacter (c : String) : String :=
  if isSingleLowerAlpha c then upperStr c
  else
    match List.lookup c
      [("1", "!"), ("2", "@"), ("3", "#"), ("4", "$"), ("5", "%"),
       ("6", "^"), ("7", "&"), ("8", "*"), ("9", "("), ("0", ")"),
       ("-", "_"), ("=", "+"), ("[", "\x7b"), ("]", "\x7d"), ("\\", "|"),
       (";", ":"), ("\x27", "\""), (",", "<"), (".", ">"), ("/", "?"),
       ("\x60", "~")] with
    | some s => s
    | none => c

/-- The key table of `keyboard-keys.json` (key name → character), reconstructed
from docs/KEYBOARD_KEYS.md since the JSON data file is configuration data
outside the embedded sources. Used as concrete input for witnesses. -/
def keyboardKeysTable : List (String × String) :=
  [("a", "a"), ("b", "b"), ("c", "c"), ("d", "d"), ("e", "e"), ("f", "f"),
   ("g", "g"), ("h", "h"), ("i", "i"), ("j", "j"), ("k", "k"), ("l", "l"),
   ("m", "m"), ("n", "n"), ("o", "o"), ("p", "p"), ("q", "q"), ("r", "r"),
   ("s", "s"), ("t", "t"), ("u", "u"), ("v", "v"), ("w", "w"), ("x", "x"),
   ("y", "y"), ("z", "z"),
   ("0", "0"), ("1", "1"), ("2", "2"), ("3", "3"), ("4", "4"),
   ("5", "5"), ("6", "6"), ("7", "7"), ("8", "8"), ("9", "9"),
   ("comma", ","), ("period", "."), ("semicolon", ";"), ("apostrophe", "\x27"),
   ("slash", "/"), ("backslash", "\\"), ("leftBracket", "["),
   ("rightBracket", "]"), ("minus", "-"), ("equals", "="), ("grave", "\x60"),
   ("exclamation", "!"), ("at", "@"), ("hash", "#"), ("dollar", "$"),
   ("percent", "%"), ("caret", "^"), ("ampersand", "&"), ("asterisk", "*"),
   ("leftParen", "("), ("rightParen", ")"), ("underscore", "_"), ("plus", "+"),
   ("leftBrace", "\x7b"), ("rightBrace", "\x7d"), ("pipe", "|"), ("colon", ":"),
   ("quote", "\""), ("lessThan", "<"), ("greaterThan", ">"), ("question", "?"),
   ("tilde", "~"),
   ("space", " "), ("tab", "\t"), ("enter", "\n")]

/-- The remote keycode table of `keycodes.json` (name → Android keycode),
reconstructed from docs/KEYCODES.md for use as concrete witness input. The
typeable-symbol key names (e.g. `exclamation`) have no entry, which is what
makes the forced-keycode failure path reachable. -/
def keycodesTable : List (String × Nat) :=
  [("home", 3), ("back", 4), ("dpadUp", 19), ("dpadDown", 20),
   ("dpadLeft", 21), ("dpadRight", 22), ("dpadCenter", 23), ("menu", 82),
   ("playPause", 85), ("volumeUp", 24), ("volumeDown", 25),
   ("volumeMute", 164), ("input", 178)]

/-- Number of occurrences of a step in a trace. -/
def countStep (t : List Step) (s : Step) : Nat :=
  (t.filter (fun x => x == s)).length

/-! ## Theorems -/

/-- C2: if the transport's connect operation fails with an error whose message
contains "already connected", the `connect()` call completes as a success (its
promise fulfills, with the literal `true`) and the believed-connected state is
true afterwards. -/
theorem connect_already_connected_is_success (quiet : Bool) (host msg : String)
    (h : containsSub msg "already connected" = true) :
    (connectRun quiet false host (some msg)).connected = true ∧
    (connectRun quiet false host (some msg)).ret = Except.ok JsRet.vTrue := by
  simp [connectRun, h]

/-- Witness for C2 at a concrete transport error message. -/
theorem connect_already_connected_is_success_witness :
    containsSub "failure: already connected to 192.168.1.100:5555" "already connected" = true ∧
    (connectRun true false "192.168.1.100:5555"
      (some "failure: already connected to 192.168.1.100:5555")).connected = true ∧
    (connectRun true false "192.168.1.100:5555"
      (some "failure: already connected to 192.168.1.100:5555")).ret =
      Except.ok JsRet.vTrue := by
  refine ⟨by decide, ?_⟩
  exact connect_already_connected_is_success true "192.168.1.100:5555"
    "failure: already connected to 192.168.1.100:5555" (by decide)

/-- C6: `getConnectionStatus(false)` returns the cached belief without querying
the transport and without modifying it; `getConnectionStatus(true)` queries the
registry, overwrites the belief with the exact-address-match result and returns
"connected"/"disconnected" accordingly; a failing registry query yields
"unknown" with the belief set false. -/
theorem getConnectionStatus_spec (c : Bool) (host : String)
    (reg : Except String (List String)) (devs : List String) (e : String) :
    getConnectionStatusRun c host false reg =
      { connected := c, status := if c then "connected" else "disconnected",
        transportQueried := false } ∧
    getConnectionStatusRun c host true (Except.ok devs) =
      { connected := devs.contains host,
        status := if devs.contains host then "connected" else "disconnected",
        transportQueried := true } ∧
    getConnectionStatusRun c host true (Except.error e) =
      { connected := false, status := "unknown", transportQueried := true } := by
  refine ⟨by simp [getConnectionStatusRun], by simp [getConnectionStatusRun], rfl⟩

/-- C10: all remote instances share the single module-level event channel: a
listener subscribed through instance `r1`'s `on` is invoked when any instance
`r2` emits that event — delivery is not isolated per instance. -/
theorem shared_module_event_channel (em : EmitterState) (r1 r2 : Nat)
    (ev : String) (l : Nat) :
    l ∈ remoteEmitListeners (remoteOn em r1 ev l) r2 ev := by
  simp [remoteEmitListeners, remoteOn, emitterOn, listenersFor, List.mem_map,
    List.mem_filter]

/-- C4 (failing input): an error whose message matches the transient-decode
noise class ("read error") is downgraded to a debug log even while
believed-connected is true, because the instance-local gate delegates to the
module-level `emitError`, which re-applies the downgrade without any
connection-state check. The spec requires such an error to be published as an
error event while connected. -/
theorem png_noise_downgraded_even_when_connected :
    pngNoise "read error" = true ∧
    localEmitErrorEvents true "read error" "screencap" =
      [Ev.log "debug" "PNG processing error (likely post-disconnect): read error"
        "screencap"] ∧
    ∀ m s, (Ev.errorEv m s) ∉ localEmitErrorEvents true "read error" "screencap" := by
  refine ⟨by decide, rfl, ?_⟩
  intro m s
  simp [localEmitErrorEvents, emitErrorEvents, show pngNoise "read error" = true from by decide]

/-- C3 (counterexample): for a transport connect failure outside the two
"already-X" categories ("boom"), the call does NOT report a negative result:
the returned promise fulfills (with the Error object as its value), and a
trailing callback receives `null` in its error position — contradicting the
claim that the promise rejects or the callback receives the error in its error
position. -/
theorem connect_error_not_negative_counterexample :
    containsSub "boom" "already connected" = false ∧
    (connectRun true false "192.168.1.100:5555" (some "boom")).ret =
      Except.ok (JsRet.vErr "boom") ∧
    ¬((∃ e, (connectRun true false "192.168.1.100:5555" (some "boom")).ret =
        Except.error e) ∨
      (wrapAsyncCb (connectRun true false "192.168.1.100:5555" (some "boom")).ret).1 ≠
        none) := by
  refine ⟨by decide, rfl, ?_⟩
  rintro (⟨e, he⟩ | hcb)
  · exact absurd (rfl.symm.trans he) (by simp [connectRun, show containsSub "boom" "already connected" = false from by decide])
  · exact hcb rfl

/-- C3 (amended): for a transport failure outside the "already-X" categories,
`connect()` and `disconnect()` route the error through the diagnostic
classifier (`handleDisconnectError`) and the Event Bus, but the returned
promise FULFILLS with the Error object as its value (a trailing callback
receives it in the result position, with `null` in the error position); the
believed-connected state is not set true by a failed connect, and an errored
disconnect leaves it unchanged. -/
theorem connect_disconnect_error_fulfills_with_error (quiet connected : Bool)
    (host msg : String) (ops : List (Nat × Bool))
    (h1 : containsSub msg "already connected" = false)
    (h2 : containsSub msg "disconnected" = false) :
    (connectRun quiet false host (some msg)).ret = Except.ok (JsRet.vErr msg) ∧
    (connectRun quiet false host (some msg)).connected = false ∧
    (connectRun quiet false host (some msg)).bus = handleDisconnectErrorEvents msg ∧
    wrapAsyncCb (connectRun quiet false host (some msg)).ret =
      (none, some (JsRet.vErr msg)) ∧
    (disconnectRun quiet connected host ops (some msg)).ret =
      Except.ok (JsRet.vErr msg) ∧
    (disconnectRun quiet connected host ops (some msg)).connected = connected ∧
    (∃ l, (disconnectRun quiet connected host ops (some msg)).bus =
      l ++ handleDisconnectErrorEvents msg) ∧
    wrapAsyncCb (disconnectRun quiet connected host ops (some msg)).ret =
      (none, some (JsRet.vErr msg)) := by
  refine ⟨?_, ?_, ?_, ?_, ?_, ?_, ?_, ?_⟩ <;>
    simp [connectRun, disconnectRun, wrapAsyncCb, h1, h2]

/-- Witness for the amended C3 at a concrete transport error message. -/
theorem connect_disconnect_error_fulfills_with_error_witness :
    containsSub "boom" "already connected" = false ∧
    containsSub "boom" "disconnected" = false ∧
    (connectRun true false "192.168.1.100:5555" (some "boom")).connected = false ∧
    (disconnectRun true true "192.168.1.100:5555" [] (some "boom")).ret =
      Except.ok (JsRet.vErr "boom") := by
  refine ⟨by decide, by decide, ?_⟩
  have h := connect_disconnect_error_fulfills_with_error true true
    "192.168.1.100:5555" "boom" [] (by decide) (by decide)
  exact ⟨h.2.1, h.2.2.2.2.1⟩

/-- A `connect()` entered with `connected = false` issues exactly one transport
connect, and its trace begins with that transport call. -/
lemma connectRun_false_one_transport (quiet : Bool) (host : String)
    (tr : Option String) :
    countStep (connectRun quiet false host tr).trace Step.transportConnect = 1 ∧
    (connectRun quiet false host tr).trace.head? = some Step.transportConnect := by
  cases tr with
  | none => simp [connectRun, countStep]
  | some msg =>
    by_cases h : containsSub msg "already connected" = true <;>
      simp [connectRun, countStep, h]

/-- C7: on a reachability tick taken while believed-connected, a successful
registry query that does not list the configured address produces a warning
event, a write of `false` to believed-connected, and then exactly one
transport reconnect attempt; a failing registry query produces a warning
event, leaves believed-connected unchanged and attempts no reconnect. -/
theorem reachability_tick_spec (quiet : Bool) (host : String)
    (devs : List String) (tr : Option String) (e : String)
    (habs : devs.contains host = false) :
    (Ev.log "warn" ("Device " ++ host ++
        " not found in adb devices list. Attempting reconnect...")
        "connectionCheck") ∈
      (connectionCheckTick quiet true host (Except.ok devs) tr).bus ∧
    (connectionCheckTick quiet true host (Except.ok devs) tr).trace.get? 1 =
      some (Step.setConn false) ∧
    (connectionCheckTick quiet true host (Except.ok devs) tr).trace.get? 2 =
      some Step.transportConnect ∧
    countStep (connectionCheckTick quiet true host (Except.ok devs) tr).trace
      Step.transportConnect = 1 ∧
    (connectionCheckTick quiet true host (Except.error e) tr).bus =
      [Ev.log "warn" ("Error checking device connection: " ++ e)
        "connectionCheck"] ∧
    (connectionCheckTick quiet true host (Except.error e) tr).connected = true ∧
    countStep (connectionCheckTick quiet true host (Except.error e) tr).trace
      Step.transportConnect = 0 := by
  have h1 := connectRun_false_one_transport quiet host tr
  have habs' : ¬ host ∈ devs := by simpa using habs
  refine ⟨?_, ?_, ?_, ?_, ?_, ?_, ?_⟩
  · simp [connectionCheckTick, habs']
  · simp [connectionCheckTick, habs']
  · have : (connectionCheckTick quiet true host (Except.ok devs) tr).trace =
        [Step.listDevices, Step.setConn false] ++
          (connectRun quiet false host tr).trace := by
      simp [connectionCheckTick, habs']
    rw [this]
    rcases hh : (connectRun quiet false host tr).trace with _ | ⟨a, rest⟩
    · rw [hh] at h1; simp at h1
    · rw [hh] at h1; simp at h1
      simp [h1.2]
  · have : (connectionCheckTick quiet true host (Except.ok devs) tr).trace =
        [Step.listDevices, Step.setConn false] ++
          (connectRun quiet false host tr).trace := by
      simp [connectionCheckTick, habs']
    rw [this]
    simpa [countStep] using h1.1
  · simp [connectionCheckTick]
  · simp [connectionCheckTick]
  · simp [connectionCheckTick, countStep]

/-- Witness for C7 at a concrete registry snapshot that lacks the address. -/
theorem reachability_tick_spec_witness :
    (["10.0.0.2:5555"].contains "192.168.1.100:5555" = false) ∧
    (connectionCheckTick true true "192.168.1.100:5555"
        (Except.ok ["10.0.0.2:5555"]) none).trace.get? 1 =
      some (Step.setConn false) ∧
    countStep (connectionCheckTick true true "192.168.1.100:5555"
        (Except.ok ["10.0.0.2:5555"]) none).trace Step.transportConnect = 1 := by
  refine ⟨by decide, ?_⟩
  have h := reachability_tick_spec true "192.168.1.100:5555" ["10.0.0.2:5555"]
    none "query failed" (by decide)
  exact ⟨h.2.1, h.2.2.2.1⟩

/-- C8: dispatching an unknown key name through the keyboard surface fails with
a descriptive error before any transport shell command is issued, and forcing
the keycode path for a key without a keycode fallback fails likewise, on both
the callable surface and the per-key functions. -/
theorem keyboard_dispatch_fails_before_transport
    (kb : List (String × String)) (kc : List (String × Nat))
    (name ch : String) (force : Bool)
    (hunk : List.lookup name kb = none)
    (hkc : List.lookup name kc = none) :
    (keyboardKeyRun kb kc name force).ret =
      Except.error ("Unknown keyboard key: " ++ name) ∧
    (keyboardKeyRun kb kc name force).shell = [] ∧
    (∀ kb2 : List (String × String), List.lookup name kb2 = some ch →
      (keyboardKeyRun kb2 kc name true).ret =
        Except.error ("No keycode available for key: " ++ name) ∧
      (keyboardKeyRun kb2 kc name true).shell = []) ∧
    (keyFnRun kc name ch true).ret =
      Except.error ("No keycode available for key: " ++ name) ∧
    (keyFnRun kc name ch true).shell = [] := by
  refine ⟨?_, ?_, ?_, ?_, ?_⟩
  · simp [keyboardKeyRun, hunk]
  · simp [keyboardKeyRun, hunk]
  · intro kb2 hk
    constructor <;> simp [keyboardKeyRun, hk, hkc]
  · simp [keyFnRun, hkc]
  · simp [keyFnRun, hkc]

/-- Witness for C8: the name "fakeKey" is absent from the key table, and the
text-only key "exclamation" has no keycode fallback. -/
theorem keyboard_dispatch_fails_before_transport_witness :
    List.lookup "fakeKey" keyboardKeysTable = none ∧
    List.lookup "exclamation" keyboardKeysTable = some "!" ∧
    List.lookup "exclamation" keycodesTable = none ∧
    (keyboardKeyRun keyboardKeysTable keycodesTable "fakeKey" false).shell = [] ∧
    (keyboardKeyRun keyboardKeysTable keycodesTable "exclamation" true).ret =
      Except.error ("No keycode available for key: " ++ "exclamation") := by
  refine ⟨by decide, by decide, by decide, ?_, ?_⟩
  · exact (keyboard_dispatch_fails_before_transport keyboardKeysTable
      keycodesTable "fakeKey" "!" false (by decide) (by decide)).2.1
  · exact ((keyboard_dispatch_fails_before_transport []
      keycodesTable "exclamation" "!" true (by decide) (by decide)).2.2.1
      keyboardKeysTable (by decide)).1

/-- Structural form of the `disconnect` trace: the settlement of every tracked
operation of the drain snapshot, in order, then the transport disconnect,
then possibly a state write — for every transport outcome and every mix of
background successes and failures. -/
lemma disconnectRun_trace_shape (quiet connected : Bool) (host : String)
    (ops : List (Nat × Bool)) (tr : Option String) :
    ∃ rest, (disconnectRun quiet connected host ops tr).trace =
      ops.map (fun p => Step.settled p.1 p.2) ++ Step.transportDisconnect :: rest := by
  cases tr with
  | none => exact ⟨[Step.setConn false], by simp [disconnectRun]⟩
  | some msg =>
    by_cases h : containsSub msg "disconnected" = true
    · exact ⟨[Step.setConn false], by simp [disconnectRun, h]⟩
    · exact ⟨[], by simp [disconnectRun, h]⟩

/-- C1: every background operation that is tracked when `disconnect()` begins
its drain step has its settlement observed strictly before the transport
disconnect is invoked — at any index below `ops.length`, while the transport
disconnect sits at index `ops.length` — regardless of which operations fail
(`Promise.allSettled` collects all outcomes); with an empty tracked set the
transport disconnect is the very first step. -/
theorem drain_settles_before_transport_disconnect (quiet connected : Bool)
    (host : String) (ops : List (Nat × Bool)) (tr : Option String)
    (p : Nat × Bool) (hp : p ∈ ops) :
    (∃ i, i < ops.length ∧
      (disconnectRun quiet connected host ops tr).trace.get? i =
        some (Step.settled p.1 p.2)) ∧
    (disconnectRun quiet connected host ops tr).trace.get? ops.length =
      some Step.transportDisconnect ∧
    ∀ tr2, (disconnectRun quiet connected host [] tr2).trace.get? 0 =
      some Step.transportDisconnect := by
  obtain ⟨rest, hshape⟩ := disconnectRun_trace_shape quiet connected host ops tr
  obtain ⟨n, hn⟩ := List.mem_iff_get.mp hp
  refine ⟨⟨n.1, n.2, ?_⟩, ?_, ?_⟩
  · rw [hshape]
    rw [List.get?_append (by simpa using n.2)]
    simp only [List.get?_map, List.get?_eq_get n.2, hn, Option.map_some]
    rfl
  · rw [hshape]
    rw [List.get?_append_right (by simp)]
    simp
  · intro tr2
    obtain ⟨rest2, hshape2⟩ :=
      disconnectRun_trace_shape quiet connected host [] tr2
    simp at hshape2
    simp [hshape2]

/-- Witness for C1 with two tracked operations, one failing. -/
theorem drain_settles_before_transport_disconnect_witness :
    ((7, false) ∈ [((7 : Nat), false), (8, true)]) ∧
    (∃ i, i < 2 ∧
      (disconnectRun true true "192.168.1.100:5555" [(7, false), (8, true)]
        none).trace.get? i = some (Step.settled 7 false)) ∧
    (disconnectRun true true "192.168.1.100:5555" [(7, false), (8, true)]
      none).trace.get? 2 = some Step.transportDisconnect := by
  have h := drain_settles_before_transport_disconnect true true
    "192.168.1.100:5555" [(7, false), (8, true)] none (7, false) (by decide)
  exact ⟨by decide, h.1, h.2.1⟩

/-- The source's `getShiftedCharacter` computes exactly the spec's shifted
form of the base character (the key name plays no role). -/
lemma getShiftedCharacter_eq_spec (k c : String) :
    getShiftedCharacter k c = specShiftedCharacter c := rfl

/-- In an association list whose first components are distinct, a first
component determines the second. -/
lemma fstNodup_snd_unique {α β : Type} {l : List (α × β)}
    (h : (l.map Prod.fst).Nodup) {a : α} {b c : β}
    (h1 : (a, b) ∈ l) (h2 : (a, c) ∈ l) : b = c := by
  induction l with
  | nil => cases h1
  | cons p ps ih =>
    simp only [List.map_cons, List.nodup_cons] at h
    rcases List.mem_cons.mp h1 with hb | hb <;>
      rcases List.mem_cons.mp h2 with hc | hc
    · rw [← hb] at hc; exact (Prod.mk.injEq _ _ _ _ ▸ hc).2.symm
    · exact absurd (List.mem_map.mpr ⟨(a, c), hc, by rw [← hb]⟩) h.1
    · exact absurd (List.mem_map.mpr ⟨(a, b), hb, by rw [← hc]⟩) h.1
    · exact ih h.2 hb hc

/-- C9: for a key table with distinct names, a key has an entry in the derived
shift surface exactly when its shifted character (uppercase for lowercase
letters, the mapped symbol for the symbol pairs) differs from its base
character, and no shift entry carries a keycode fallback. -/
theorem shift_surface_iff (kb : List (String × String))
    (hnd : (kb.map Prod.fst).Nodup) (name ch : String)
    (hmem : (name, ch) ∈ kb) :
    ((∃ e, (name, e) ∈ buildShiftSurface kb) ↔ specShiftedCharacter ch ≠ ch) ∧
    (∀ q ∈ buildShiftSurface kb, q.2.kc = none) := by
  constructor
  · constructor
    · rintro ⟨e, he⟩
      obtain ⟨p, hp, hpe⟩ := List.mem_filterMap.mp he
      by_cases hcond : getShiftedCharacter p.1 p.2 != p.2
      · rw [if_pos hcond] at hpe
        have hname : p.1 = name := (Prod.mk.injEq _ _ _ _ ▸ Option.some.inj hpe).1
        have hch : p.2 = ch := by
          refine fstNodup_snd_unique hnd ?_ hmem
          rw [← hname]; exact hp
        rw [getShiftedCharacter_eq_spec, hch] at hcond
        exact ne_of_beq_false (by simpa using hcond)
      · rw [if_neg hcond] at hpe; cases hpe
    · intro hne
      refine ⟨{ textChar := specShiftedCharacter ch, kc := none },
        List.mem_filterMap.mpr ⟨(name, ch), hmem, ?_⟩⟩
      rw [if_pos (by simp [getShiftedCharacter_eq_spec, hne])]
      rfl
  · intro q hq
    obtain ⟨p, hp, hpe⟩ := List.mem_filterMap.mp hq
    by_cases hcond : getShiftedCharacter p.1 p.2 != p.2
    · rw [if_pos hcond] at hpe
      rw [← Option.some.inj hpe]
    · rw [if_neg hcond] at hpe; cases hpe

/-- Witness for C9 on the documented key table: the letter key "a" has a shift
entry ("A" differs from "a"), the already-shifted symbol key "exclamation"
has none ("!" is its own shifted form). -/
theorem shift_surface_iff_witness :
    (("a", "a") ∈ keyboardKeysTable) ∧
    (∃ e, ("a", e) ∈ buildShiftSurface keyboardKeysTable) ∧
    (("exclamation", "!") ∈ keyboardKeysTable) ∧
    ¬(∃ e, ("exclamation", e) ∈ buildShiftSurface keyboardKeysTable) := by
  have h1 := shift_surface_iff keyboardKeysTable (by decide) "a" "a" (by decide)
  have h2 := shift_surface_iff keyboardKeysTable (by decide) "exclamation" "!"
    (by decide)
  exact ⟨by decide, h1.1.mpr (by decide), by decide,
    fun hx => (by decide : ¬ specShiftedCharacter "!" ≠ "!") (h2.1.mp hx)⟩

lemma mem_roleIds (l : List (Nat × Role)) (x : Nat) (r : Role) :
    x ∈ roleIds l r ↔ (x, r) ∈ l := by
  induction l with
  | nil => simp [roleIds]
  | cons p ps ih =>
    obtain ⟨a, b⟩ := p
    by_cases h : b = r
    · subst h
      simp [roleIds, ih, Prod.ext_iff]
    · simp [roleIds, h, ih, Prod.ext_iff, fun hx : x = a => (Ne.symm h : r ≠ b)]
      tauto

lemma roleIds_removeId (l : List (Nat × Role)) (id : Nat) (r : Role) :
    roleIds (removeId l id) r = (roleIds l r).filter (fun x => x != id) := by
  induction l with
  | nil => rfl
  | cons p ps ih =>
    obtain ⟨a, b⟩ := p
    by_cases h1 : a = id <;> by_cases h2 : b = r <;>
      simp [roleIds, removeId, List.filter_cons, h1, h2, ih] <;>
      simp [removeId] at ih <;> simp [ih]

lemma mem_of_mem_removeId {l : List (Nat × Role)} {id : Nat} {p : Nat × Role}
    (h : p ∈ removeId l id) : p ∈ l :=
  List.mem_of_mem_filter h

lemma nodup_fst_removeId {l : List (Nat × Role)} {id : Nat}
    (h : (l.map Prod.fst).Nodup) : ((removeId l id).map Prod.fst).Nodup :=
  List.Nodup.sublist (List.Sublist.map _ (List.filter_sublist l)) h

lemma clearHandle_hb (s : TimerSys) (h : Option Nat) : (clearHandle s h).hb = s.hb := by
  cases h <;> rfl

lemma clearHandle_cc (s : TimerSys) (h : Option Nat) : (clearHandle s h).cc = s.cc := by
  cases h <;> rfl

lemma clearHandle_dc (s : TimerSys) (h : Option Nat) : (clearHandle s h).dc = s.dc := by
  cases h <;> rfl

lemma clearHandle_fresh (s : TimerSys) (h : Option Nat) :
    (clearHandle s h).fresh = s.fresh := by
  cases h <;> rfl

lemma clearHandle_handleOf (s : TimerSys) (h : Option Nat) (r : Role) :
    (clearHandle s h).handleOf r = s.handleOf r := by
  cases h <;> cases r <;> rfl

lemma mem_clearHandle_live {s : TimerSys} {h : Option Nat} {p : Nat × Role}
    (hp : p ∈ (clearHandle s h).live) : p ∈ s.live := by
  cases h with
  | none => exact hp
  | some id => exact mem_of_mem_removeId hp

lemma nodup_fst_clearHandle {s : TimerSys} (h : Option Nat)
    (hn : (s.live.map Prod.fst).Nodup) :
    ((clearHandle s h).live.map Prod.fst).Nodup := by
  cases h with
  | none => exact hn
  | some id => exact nodup_fst_removeId hn

lemma installTimer_handleOf (s : TimerSys) (r r' : Role) :
    (installTimer s r).handleOf r' =
      if r' == r then some s.fresh else s.handleOf r' := by
  cases r <;> cases r' <;> rfl

/-- Clearing the timer a role's handle points to leaves that role with no live
timer, provided the handle correspondence holds. -/
lemma roleIds_clear_own (s : TimerSys) (r : Role)
    (hcorr : ∀ r', roleIds s.live r' = (s.handleOf r').toList) :
    roleIds (clearHandle s (s.handleOf r)).live r = [] := by
  rcases hh : s.handleOf r with _ | id
  · simpa [clearHandle, hh] using hcorr r
  · have : roleIds s.live r = [id] := by rw [hcorr r, hh]; rfl
    simp [clearHandle, roleIds_removeId, this]

/-- Clearing one role's timer does not disturb another role's live timers,
provided handle correspondence and global id distinctness hold. -/
lemma roleIds_clear_other (s : TimerSys) (r r' : Role)
    (hcorr : ∀ r'', roleIds s.live r'' = (s.handleOf r'').toList)
    (hnodup : (s.live.map Prod.fst).Nodup) (hne : r' ≠ r) :
    roleIds (clearHandle s (s.handleOf r)).live r' = roleIds s.live r' := by
  rcases hh : s.handleOf r with _ | id
  · simp [clearHandle]
  · simp only [clearHandle, roleIds_removeId]
    apply List.filter_eq_self.mpr
    intro x hx
    have hx' : (x, r') ∈ s.live := (mem_roleIds _ _ _).mp hx
    have hid : (id, r) ∈ s.live := by
      refine (mem_roleIds _ _ _).mp ?_
      rw [hcorr r, hh]; exact List.mem_singleton.mpr rfl
    simp only [bne_iff_ne, ne_eq, decide_eq_true_eq]
    intro hxid
    subst hxid
    exact hne (fstNodup_snd_unique hnodup hx' hid)

/-- Replacing a role's timer — clear the one its handle points to, then
install a fresh one — preserves the timer invariant. This is the common core
of `resetDisconnectTimer`, `startHeartbeat` and `startConnectionCheck`. -/
lemma replaceTimer_inv (s : TimerSys) (r : Role) (h : TimerInv s) :
    TimerInv (installTimer (clearHandle s (s.handleOf r)) r) := by
  obtain ⟨hcorr, hbound, hnodup⟩ := h
  refine ⟨?_, ?_, ?_⟩
  · intro r'
    rw [installTimer_handleOf]
    by_cases hrr : r' = r
    · subst hrr
      simp only [beq_self_eq_true, if_pos]
      show roleIds ((_, r') :: _) r' = _
      rw [roleIds, if_pos (by simp)]
      rw [roleIds_clear_own s r' hcorr]
      rfl
    · rw [if_neg (by simpa using hrr)]
      show roleIds ((_, r) :: _) r' = _
      rw [roleIds, if_neg (by simpa using fun e : r = r' => hrr e.symm)]
      rw [roleIds_clear_other s r r' hcorr hnodup hrr,
        clearHandle_handleOf, hcorr r']
  · intro p hp
    rcases List.mem_cons.mp hp with hp | hp
    · subst hp
      simp [installTimer, clearHandle_fresh]
    · have := hbound p (mem_clearHandle_live hp)
      simp only [installTimer, clearHandle_fresh] at *
      omega
  · show (((_, r) :: (clearHandle s (s.handleOf r)).live).map Prod.fst).Nodup
    rw [List.map_cons, List.nodup_cons]
    refine ⟨?_, nodup_fst_clearHandle _ hnodup⟩
    rw [clearHandle_fresh]
    intro hmem
    obtain ⟨p, hp, hfst⟩ := List.mem_map.mp hmem
    have := hbound p (mem_clearHandle_live hp)
    omega

/-- Clearing a role's timer and nulling its handle preserves the invariant,
stated for an arbitrary role via its handle projection and update. -/
lemma clearNull_inv (s : TimerSys) (r : Role) (t : TimerSys)
    (hlive : t.live = (clearHandle s (s.handleOf r)).live)
    (hfresh : t.fresh = s.fresh)
    (hself : t.handleOf r = none)
    (hother : ∀ r', r' ≠ r → t.handleOf r' = s.handleOf r')
    (h : TimerInv s) : TimerInv t := by
  obtain ⟨hcorr, hbound, hnodup⟩ := h
  refine ⟨?_, ?_, ?_⟩
  · intro r'
    by_cases hrr : r' = r
    · subst hrr
      rw [hlive, hself, roleIds_clear_own s r' hcorr]; rfl
    · rw [hlive, hother r' hrr, roleIds_clear_other s r r' hcorr hnodup hrr,
        hcorr r']
  · intro p hp
    rw [hlive] at hp
    rw [hfresh]
    exact hbound p (mem_clearHandle_live hp)
  · rw [hlive]
    exact nodup_fst_clearHandle _ hnodup

lemma stopHeartbeat_inv (s : TimerSys) (h : TimerInv s) :
    TimerInv (stopHeartbeat s) := by
  have h1 : TimerInv { clearHandle s s.hb with hb := none } := by
    refine clearNull_inv s Role.heartbeat _ rfl (clearHandle_fresh s s.hb) rfl ?_ h
    intro r' hr'
    cases r' with
    | heartbeat => exact absurd rfl hr'
    | connCheck => exact clearHandle_cc s s.hb
    | inactivity => exact clearHandle_dc s s.hb
  refine clearNull_inv { clearHandle s s.hb with hb := none } Role.connCheck _
    rfl (clearHandle_fresh _ _) rfl ?_ h1
  intro r' hr'
  cases r' with
  | heartbeat => exact clearHandle_hb _ _
  | connCheck => exact absurd rfl hr'
  | inactivity => exact clearHandle_dc _ _

lemma disconnectTimerStep_inv (s : TimerSys) (h : TimerInv s) :
    TimerInv (disconnectTimerStep s) := by
  refine stopHeartbeat_inv _ ?_
  refine clearNull_inv s Role.inactivity _ rfl (clearHandle_fresh s s.dc) rfl ?_ h
  intro r' hr'
  cases r' with
  | heartbeat => exact clearHandle_hb s s.dc
  | connCheck => exact clearHandle_cc s s.dc
  | inactivity => exact absurd rfl hr'

/-- Under the invariant, each role has at most one live timer. -/
lemma atMostOne_of_inv {s : TimerSys} (h : TimerInv s) (r : Role) :
    (roleIds s.live r).length ≤ 1 := by
  rw [h.1 r]
  cases s.handleOf r <;> simp

lemma stopHeartbeat_hb (s : TimerSys) : (stopHeartbeat s).hb = none := by
  cases h1 : s.hb <;> cases h2 : s.cc <;>
    simp [stopHeartbeat, clearHandle, h1, h2]

lemma disconnectTimerStep_dc (s : TimerSys) :
    (disconnectTimerStep s).dc = none := by
  have h0 : ∀ t : TimerSys, t.dc = none → (stopHeartbeat t).dc = none := by
    intro t ht
    cases h1 : t.hb <;> cases h2 : t.cc <;>
      simp [stopHeartbeat, clearHandle, h1, h2, ht]
  refine h0 _ ?_
  cases h1 : s.dc <;> simp [clearHandle, h1]

/-- C5: at most one live timer exists per role at every point: each of the
three start/reset operations cancels the existing timer of its role (if any)
before installing a new one, so each preserves the timer invariant — under
which every role has at most one live timer — and the stop operations on
disconnect clear both the live timers and the handles of their roles. -/
theorem timer_at_most_one_per_role (autoDisconnect maintainConnection : Bool)
    (s : TimerSys) (h : TimerInv s) :
    TimerInv (resetDisconnectTimer autoDisconnect s) ∧
    TimerInv (startHeartbeat maintainConnection s) ∧
    TimerInv (startConnectionCheck s) ∧
    TimerInv (stopHeartbeat s) ∧
    TimerInv (disconnectTimerStep s) ∧
    (∀ r, (roleIds (resetDisconnectTimer autoDisconnect s).live r).length ≤ 1) ∧
    (∀ r, (roleIds (startHeartbeat maintainConnection s).live r).length ≤ 1) ∧
    (∀ r, (roleIds (startConnectionCheck s).live r).length ≤ 1) ∧
    (stopHeartbeat s).hb = none ∧ (stopHeartbeat s).cc = none ∧
    roleIds (stopHeartbeat s).live Role.heartbeat = [] ∧
    roleIds (stopHeartbeat s).live Role.connCheck = [] ∧
    (disconnectTimerStep s).dc = none ∧
    roleIds (disconnectTimerStep s).live Role.inactivity = [] := by
  have hreset : TimerInv (resetDisconnectTimer autoDisconnect s) := by
    unfold resetDisconnectTimer
    by_cases hb : autoDisconnect <;> simp [hb]
    · exact replaceTimer_inv s Role.inactivity h
    · exact h
  have hhb : TimerInv (startHeartbeat maintainConnection s) := by
    unfold startHeartbeat
    by_cases hm : maintainConnection <;> simp [hm]
    · exact replaceTimer_inv _ Role.connCheck (replaceTimer_inv s Role.heartbeat h)
    · exact h
  have hcc : TimerInv (startConnectionCheck s) :=
    replaceTimer_inv s Role.connCheck h
  have hstop : TimerInv (stopHeartbeat s) := stopHeartbeat_inv s h
  have hdisc : TimerInv (disconnectTimerStep s) := disconnectTimerStep_inv s h
  have hstopHb : (stopHeartbeat s).hb = none := stopHeartbeat_hb s
  have hstopCc : (stopHeartbeat s).cc = none := rfl
  have hdiscDc : (disconnectTimerStep s).dc = none := disconnectTimerStep_dc s
  refine ⟨hreset, hhb, hcc, hstop, hdisc,
    fun r => atMostOne_of_inv hreset r,
    fun r => atMostOne_of_inv hhb r,
    fun r => atMostOne_of_inv hcc r,
    hstopHb, hstopCc, ?_, ?_, hdiscDc, ?_⟩
  · rw [hstop.1 Role.heartbeat]
    show (TimerSys.handleOf _ Role.heartbeat).toList = []
    rw [show TimerSys.handleOf (stopHeartbeat s) Role.heartbeat =
      (stopHeartbeat s).hb from rfl, hstopHb]
    rfl
  · rw [hstop.1 Role.connCheck, show TimerSys.handleOf (stopHeartbeat s)
      Role.connCheck = (stopHeartbeat s).cc from rfl, hstopCc]
    rfl
  · rw [hdisc.1 Role.inactivity, show TimerSys.handleOf (disconnectTimerStep s)
      Role.inactivity = (disconnectTimerStep s).dc from rfl, hdiscDc]
    rfl

/-- A concrete timer state: one live heartbeat timer, nothing else. -/
def timerWitnessState : TimerSys :=
  { live := [(0, Role.heartbeat)], hb := some 0, cc := none, dc := none,
    fresh := 1 }

/-- Witness for C5 at a concrete timer state satisfying the invariant. -/
theorem timer_at_most_one_per_role_witness :
    TimerInv timerWitnessState ∧
    TimerInv (startHeartbeat true timerWitnessState) ∧
    (stopHeartbeat timerWitnessState).hb = none := by
  have hinv : TimerInv timerWitnessState := by
    refine ⟨?_, ?_, ?_⟩
    · intro r; cases r <;> rfl
    · intro p hp; simp [timerWitnessState] at hp; simp [hp, timerWitnessState]
    · simp [timerWitnessState]
  have h := timer_at_most_one_per_role true true _ hinv
  exact ⟨hinv, h.2.1, h.2.2.2.2.2.2.2.2.1⟩

end AndroidTvRemote
